import Mathlib

/-!
Shallow embedding of the core of the esp_dmx RDM responder/controller driver.

The definitions below are translated from the C sources:
  * `src/src/rdm/utils.c`   (UID predicates, `rdm_encode`, `get_preamble_len`)
  * `src/src/rdm/mdb.c`     (`rdm_decode_mute` and friends)
  * `src/src/esp_dmx.c`     (`dmx_read_rdm`, `dmx_write_rdm`, `dmx_write_offset`,
                             and the responder dispatch inside `dmx_receive`)

Machine integers are modelled as `Nat` (bytes are `Nat`s assumed `< 256` in
theorem hypotheses; `uint16_t` accumulation applies `% 65536` at each step,
exactly as C unsigned arithmetic wraps).  Byte buffers are `Nat → Nat`
functions, matching the driver's flat `uint8_t` arrays.
-/

namespace EspDmx

/-- RDM start code (`RDM_SC`). -/
def RDM_SC : Nat := 0xcc

/-- RDM sub-start code (`RDM_SUB_SC`). -/
def RDM_SUB_SC : Nat := 0x01

/-- Discovery-response preamble byte (`RDM_PREAMBLE`). -/
def RDM_PREAMBLE : Nat := 0xfe

/-- Discovery-response delimiter byte (`RDM_DELIMITER`). -/
def RDM_DELIMITER : Nat := 0xaa

/-- `rdm_uid_t`: 16-bit manufacturer ID and 32-bit device ID. -/
structure RdmUid where
  man_id : Nat
  dev_id : Nat
  deriving DecidableEq, Repr

/-- `RDM_UID_BROADCAST_ALL` from `rdm/types.h`. -/
def RDM_UID_BROADCAST_ALL : RdmUid := ⟨0xffff, 0xffffffff⟩

/-- `RDM_UID_NULL` from `rdm/types.h`. -/
def RDM_UID_NULL : RdmUid := ⟨0, 0⟩

/-- `RDM_SUB_DEVICE_ALL` from `rdm/types.h`. -/
def RDM_SUB_DEVICE_ALL : Nat := 0xffff

/-- `uid_is_eq` from `rdm/utils.c`. -/
def uid_is_eq (a b : RdmUid) : Bool :=
  a.man_id == b.man_id && a.dev_id == b.dev_id

/-- `uid_is_broadcast` from `rdm/utils.c`. -/
def uid_is_broadcast (u : RdmUid) : Bool :=
  u.dev_id == 0xffffffff

/-- `uid_is_null` from `rdm/utils.c`. -/
def uid_is_null (u : RdmUid) : Bool :=
  u.man_id == 0 && u.dev_id == 0

/-- `uid_is_target` from `rdm/utils.c`: the self UID is the first argument and
the packet's destination (alias) UID is the second. -/
def uid_is_target (uid al : RdmUid) : Bool :=
  ((al.man_id == 0xffff || al.man_id == uid.man_id) &&
      al.dev_id == 0xffffffff) ||
    uid_is_eq uid al

/-- C9: `uid_is_target(self, alias)` is true iff `alias` equals `self`, or
`alias.dev_id == 0xFFFFFFFF` and (`alias.man_id == 0xFFFF` or
`alias.man_id == self.man_id`); in particular every UID is a target of
`RDM_UID_BROADCAST_ALL`. -/
theorem uid_is_target_correct (self al : RdmUid) :
    (uid_is_target self al = true ↔
      al = self ∨
        (al.dev_id = 0xffffffff ∧
          (al.man_id = 0xffff ∨ al.man_id = self.man_id))) ∧
    uid_is_target self RDM_UID_BROADCAST_ALL = true := by
  constructor
  · simp only [uid_is_target, uid_is_eq, Bool.or_eq_true, Bool.and_eq_true,
      beq_iff_eq]
    constructor
    · rintro (⟨h1 | h1, h2⟩ | ⟨h1, h2⟩)
      · exact Or.inr ⟨h2, Or.inl h1⟩
      · exact Or.inr ⟨h2, Or.inr h1⟩
      · refine Or.inl ?_
        cases al; cases self
        simp_all
    · rintro (rfl | ⟨h1, h2 | h2⟩)
      · exact Or.inr ⟨rfl, rfl⟩
      · exact Or.inl ⟨Or.inl h2, h1⟩
      · exact Or.inl ⟨Or.inr h2, h1⟩
  · simp [uid_is_target, RDM_UID_BROADCAST_ALL]

/-- Witness for C9 at a concrete pair of UIDs. -/
theorem uid_is_target_correct_witness :
    (uid_is_target ⟨0x0001, 0x00000005⟩ ⟨0x0001, 0xffffffff⟩ = true ↔
      (⟨0x0001, 0xffffffff⟩ : RdmUid) = ⟨0x0001, 0x00000005⟩ ∨
        ((0xffffffff : Nat) = 0xffffffff ∧
          ((0x0001 : Nat) = 0xffff ∨ (0x0001 : Nat) = 0x0001))) ∧
    uid_is_target ⟨0x0001, 0x00000005⟩ RDM_UID_BROADCAST_ALL = true :=
  uid_is_target_correct ⟨0x0001, 0x00000005⟩ ⟨0x0001, 0xffffffff⟩

/-! ### Byte-buffer helpers

The driver buffer `driver->data` is modelled as a total function `Nat → Nat`;
the theorems assume every entry is a byte (`< 256`), as it is for the C
`uint8_t` array. -/

/-- A buffer holds bytes. -/
def byteBuf (d : Nat → Nat) : Prop := ∀ i, d i < 256

/-- Little-endian 16-bit load `*(uint16_t *)(p + i)` on the ESP32. -/
def load16LE (d : Nat → Nat) (i : Nat) : Nat := d i + d (i + 1) * 256

/-- `bswap16` on a 16-bit value. -/
def bswap16 (x : Nat) : Nat := (x % 256) * 256 + (x / 256) % 256

/-- Little-endian 32-bit load `*(uint32_t *)(p + i)` on the ESP32. -/
def load32LE (d : Nat → Nat) (i : Nat) : Nat :=
  d i + d (i + 1) * 256 + d (i + 2) * 65536 + d (i + 3) * 16777216

/-- `bswap32` on a 32-bit value. -/
def bswap32 (x : Nat) : Nat :=
  (x % 256) * 16777216 + (x / 256 % 256) * 65536 +
    (x / 65536 % 256) * 256 + x / 16777216 % 256

/-- `uint16_t checksum` accumulation `checksum += d[i]` over `i < n`, with the
C unsigned-short wraparound applied at every step. -/
def checksum16 (d : Nat → Nat) : Nat → Nat
  | 0 => 0
  | n + 1 => (checksum16 d n + d n) % 65536

/-- Plain sum of the bytes `d 0, …, d (n-1)` (for stating checksum facts). -/
def sumBytes (d : Nat → Nat) : Nat → Nat
  | 0 => 0
  | n + 1 => sumBytes d n + d n

theorem checksum16_eq_sumBytes_mod (d : Nat → Nat) (n : Nat) :
    checksum16 d n = sumBytes d n % 65536 := by
  induction n with
  | zero => rfl
  | succ n ih => simp [checksum16, sumBytes, ih, Nat.add_mod]

/-- `get_preamble_len` from `rdm/utils.c` (the identical loop is inlined in
`dmx_read_rdm`, `esp_dmx.c` lines 96–98): the index of the first
`RDM_DELIMITER` among positions 0–7, or 8 when there is none. -/
def get_preamble_len (d : Nat → Nat) : Nat :=
  if d 0 = RDM_DELIMITER then 0
  else if d 1 = RDM_DELIMITER then 1
  else if d 2 = RDM_DELIMITER then 2
  else if d 3 = RDM_DELIMITER then 3
  else if d 4 = RDM_DELIMITER then 4
  else if d 5 = RDM_DELIMITER then 5
  else if d 6 = RDM_DELIMITER then 6
  else if d 7 = RDM_DELIMITER then 7
  else 8

/-- `rdm_header_t` (host representation, after the byte swaps performed by
`dmx_read_rdm`).  The C `port_id`/`response_type` union is the single field
`port_id`. -/
structure RdmHeader where
  message_len : Nat
  dest_uid : RdmUid
  src_uid : RdmUid
  tn : Nat
  port_id : Nat
  message_count : Nat
  sub_device : Nat
  cc : Nat
  pid : Nat
  pdl : Nat
  deriving DecidableEq, Repr

/-- Command-class constants from `rdm/types.h`. -/
def RDM_CC_DISC_COMMAND : Nat := 0x10

def RDM_CC_DISC_COMMAND_RESPONSE : Nat := 0x11

def RDM_CC_GET_COMMAND : Nat := 0x20

def RDM_CC_GET_COMMAND_RESPONSE : Nat := 0x21

def RDM_CC_SET_COMMAND : Nat := 0x30

def RDM_CC_SET_COMMAND_RESPONSE : Nat := 0x31

def RDM_PID_DISC_UNIQUE_BRANCH : Nat := 0x0001

def RDM_SUB_DEVICE_ROOT : Nat := 0

/-- The discovery-response checksum comparison of `dmx_read_rdm`
(`esp_dmx.c` lines 140–145): the `uint16_t` sum of the 16 encoded bytes that
follow the delimiter at index `p`, compared against
`((e[12] & e[13]) << 8) | (e[14] & e[15])`. -/
def dub_checksum_ok (d : Nat → Nat) (p : Nat) : Bool :=
  let e := fun i => d (p + 1 + i)
  checksum16 e 12 ==
    Nat.lor (Nat.shiftLeft (Nat.land (e 12) (e 13)) 8) (Nat.land (e 14) (e 15))

/-- Result of `dmx_read_rdm`: the returned size and the decoded header (when
the C caller passes a non-NULL `header`).  In the discovery-response branch the
C code leaves `header->message_len` unassigned; the model sets it to 0 (no
claim depends on it). -/
structure ReadRdmResult where
  read : Nat
  header : Option RdmHeader
  deriving Repr

/-- `dmx_read_rdm` from `esp_dmx.c` (lines 73–177), reading the driver buffer
`d`.  Returns 0 unless the packet is a standard RDM packet with a valid
checksum or a discovery (DUB) response with a delimiter in the first 8 bytes
and a valid encoded checksum. -/
def dmx_read_rdm (d : Nat → Nat) : ReadRdmResult :=
  -- Verify start code and sub-start code are correct
  if load16LE d 0 ≠ Nat.lor RDM_SC (Nat.shiftLeft RDM_SUB_SC 8) ∧
      d 0 ≠ RDM_PREAMBLE ∧ d 0 ≠ RDM_DELIMITER then
    ⟨0, none⟩
  -- Get and verify the preamble_len if packet is a discovery response
  else if (d 0 = RDM_PREAMBLE ∨ d 0 = RDM_DELIMITER) ∧ get_preamble_len d > 7 then
    ⟨0, none⟩
  else if d 0 = RDM_SC then
    -- Standard RDM packet: verify checksum over bytes [0, message_len)
    let message_len := d 2
    if checksum16 d message_len ≠ bswap16 (load16LE d message_len) then
      ⟨0, none⟩
    else
      ⟨message_len + 2,
        some
          { message_len := message_len
            dest_uid := ⟨bswap16 (load16LE d 3), bswap32 (load32LE d 5)⟩
            src_uid := ⟨bswap16 (load16LE d 9), bswap32 (load32LE d 11)⟩
            tn := d 15
            port_id := d 16
            message_count := d 17
            sub_device := bswap16 (load16LE d 18)
            cc := d 20
            pid := bswap16 (load16LE d 21)
            pdl := d 23 }⟩
  else
    -- Discovery (DUB) response branch
    let p := get_preamble_len d
    let e := fun i => d (p + 1 + i)
    if dub_checksum_ok d p then
      -- Decode the EUID: buf[i] = e[2i] & e[2i+1]
      let buf := fun j => Nat.land (e (2 * j)) (e (2 * j + 1))
      ⟨p + 1 + 16,
        some
          { message_len := 0
            dest_uid := ⟨0, 0⟩
            src_uid := ⟨bswap16 (load16LE buf 0), bswap32 (load32LE buf 2)⟩
            tn := 0
            port_id := 0  -- response_type := RDM_RESPONSE_TYPE_ACK
            message_count := 0
            sub_device := RDM_SUB_DEVICE_ROOT
            cc := RDM_CC_DISC_COMMAND_RESPONSE
            pid := RDM_PID_DISC_UNIQUE_BRANCH
            pdl := p + 1 + 16 }⟩
    else ⟨0, none⟩

/-- C2: for a buffer presented as a standard RDM packet (first two bytes
`0xCC 0x01`), `dmx_read_rdm` returns 0 whenever the big-endian 16-bit checksum
stored at offset `message_len` differs from the sum of bytes
`[0, message_len)` mod 2¹⁶; when it matches, it returns `message_len + 2`.
Hence a reported size `> 0` implies the checksum passed, and since
`message_len` is a single byte, `message_len + 2` can never exceed the
513-byte driver buffer. -/
theorem dmx_read_rdm_std_checksum (d : Nat → Nat) (hb : byteBuf d)
    (h0 : d 0 = 0xcc) (h1 : d 1 = 0x01) :
    d 2 + 2 ≤ 513 ∧
    (d (d 2) * 256 + d (d 2 + 1) ≠ sumBytes d (d 2) % 65536 →
      (dmx_read_rdm d).read = 0) ∧
    (d (d 2) * 256 + d (d 2 + 1) = sumBytes d (d 2) % 65536 →
      (dmx_read_rdm d).read = d 2 + 2) ∧
    ((dmx_read_rdm d).read ≠ 0 →
      d (d 2) * 256 + d (d 2 + 1) = sumBytes d (d 2) % 65536) := by
  have hml : d 2 < 256 := hb 2
  have hbsw : bswap16 (load16LE d (d 2)) = d (d 2) * 256 + d (d 2 + 1) := by
    have ha := hb (d 2)
    have hc := hb (d 2 + 1)
    simp only [bswap16, load16LE]
    have h256 : (d (d 2) + d (d 2 + 1) * 256) % 256 = d (d 2) := by omega
    have hdiv : (d (d 2) + d (d 2 + 1) * 256) / 256 = d (d 2 + 1) := by omega
    rw [h256, hdiv, Nat.mod_eq_of_lt hc]
  have hguard1 : ¬(load16LE d 0 ≠ Nat.lor RDM_SC (Nat.shiftLeft RDM_SUB_SC 8) ∧
      d 0 ≠ RDM_PREAMBLE ∧ d 0 ≠ RDM_DELIMITER) := by
    simp only [load16LE, h0, h1, RDM_SC, RDM_SUB_SC]
    intro h
    exact h.1 (by decide)
  have hguard2 : ¬((d 0 = RDM_PREAMBLE ∨ d 0 = RDM_DELIMITER) ∧
      get_preamble_len d > 7) := by
    rintro ⟨h | h, -⟩ <;> rw [h0] at h <;> simp [RDM_PREAMBLE, RDM_DELIMITER] at h
  have hsc : d 0 = RDM_SC := by rw [h0]; rfl
  refine ⟨by omega, ?_, ?_, ?_⟩
  · intro hmm
    simp only [dmx_read_rdm, if_neg hguard1, if_neg hguard2, if_pos hsc]
    rw [if_pos]
    rw [checksum16_eq_sumBytes_mod, hbsw]
    omega
  · intro hmm
    simp only [dmx_read_rdm, if_neg hguard1, if_neg hguard2, if_pos hsc]
    rw [if_neg]
    rw [checksum16_eq_sumBytes_mod, hbsw]
    omega
  · intro hne
    by_contra hmm
    apply hne
    simp only [dmx_read_rdm, if_neg hguard1, if_neg hguard2, if_pos hsc]
    rw [if_pos]
    rw [checksum16_eq_sumBytes_mod, hbsw]
    omega

/-- Witness for C2: a concrete 26-byte standard RDM packet with a correct
checksum is accepted with size `message_len + 2 = 26`. -/
theorem dmx_read_rdm_std_checksum_witness :
    (dmx_read_rdm fun i =>
        if i = 0 then 0xcc else if i = 1 then 0x01 else if i = 2 then 24
        else if i = 24 then 0 else if i = 25 then 0xe5 else 0).read = 26 := by
  have h := dmx_read_rdm_std_checksum
    (fun i =>
      if i = 0 then 0xcc else if i = 1 then 0x01 else if i = 2 then 24
      else if i = 24 then 0 else if i = 25 then 0xe5 else 0)
    (by intro i; dsimp only; repeat' split; all_goals norm_num) rfl rfl
  exact h.2.2.1 (by decide)

/-- C8: for a buffer starting with `0xFE` or `0xAA`, `dmx_read_rdm` accepts a
discovery-response preamble of 0–7 bytes before the `0xAA` delimiter (the
packet is then processed, returning `preamble_len + 1 + 16` when the encoded
checksum passes) and returns 0 when the first 8 bytes contain no `0xAA`;
`get_preamble_len` returns the index of the first `0xAA` among positions 0–7,
or 8 when there is none. -/
theorem dub_preamble_policy (d : Nat → Nat) (p : Nat)
    (h0 : d 0 = RDM_PREAMBLE ∨ d 0 = RDM_DELIMITER) :
    ((∀ i, i < 8 → d i ≠ RDM_DELIMITER) →
      get_preamble_len d = 8 ∧ (dmx_read_rdm d).read = 0) ∧
    (p ≤ 7 → d p = RDM_DELIMITER → (∀ i, i < p → d i ≠ RDM_DELIMITER) →
      get_preamble_len d = p ∧
        (dub_checksum_ok d p = true → (dmx_read_rdm d).read = p + 1 + 16)) := by
  have hnotsc : d 0 ≠ RDM_SC := by
    rcases h0 with h | h <;> rw [h] <;> simp [RDM_PREAMBLE, RDM_DELIMITER, RDM_SC]
  have hguard1 : ¬(load16LE d 0 ≠ Nat.lor RDM_SC (Nat.shiftLeft RDM_SUB_SC 8) ∧
      d 0 ≠ RDM_PREAMBLE ∧ d 0 ≠ RDM_DELIMITER) := by
    rintro ⟨-, hfe, haa⟩
    rcases h0 with h | h
    · exact hfe h
    · exact haa h
  constructor
  · intro h8
    have hpl : get_preamble_len d = 8 := by
      simp only [get_preamble_len,
        if_neg (h8 0 (by omega)), if_neg (h8 1 (by omega)),
        if_neg (h8 2 (by omega)), if_neg (h8 3 (by omega)),
        if_neg (h8 4 (by omega)), if_neg (h8 5 (by omega)),
        if_neg (h8 6 (by omega)), if_neg (h8 7 (by omega))]
    refine ⟨hpl, ?_⟩
    simp only [dmx_read_rdm, if_neg hguard1]
    rw [if_pos ⟨h0, by omega⟩]
  · intro hp hdp hlt
    have hpl : get_preamble_len d = p := by
      interval_cases p <;> simp_all [get_preamble_len] <;> decide
    refine ⟨hpl, ?_⟩
    intro hck
    have hng : ¬((d 0 = RDM_PREAMBLE ∨ d 0 = RDM_DELIMITER) ∧ p > 7) := by
      rintro ⟨-, hgt⟩
      omega
    simp only [dmx_read_rdm, if_neg hguard1, hpl, if_neg hng, if_neg hnotsc]
    simp [hck]

/-- Witness for C8: a buffer of nothing but `0xFE` (a preamble of 8 or more
bytes) is rejected. -/
theorem dub_preamble_policy_witness :
    get_preamble_len (fun _ => 0xfe) = 8 ∧
      (dmx_read_rdm (fun _ => 0xfe)).read = 0 :=
  (dub_preamble_policy (fun _ => 0xfe) 0 (Or.inl rfl)).1 (by decide)

/-! ### Discovery-response (DUB) framing: `dmx_write_rdm`'s encoder -/

set_option maxRecDepth 10000 in
/-- For a byte `b`, the two dual-encoded bytes AND back to `b`. -/
theorem land_lor_aa_55 : ∀ b : Nat, b < 256 →
    Nat.land (Nat.lor b 0xaa) (Nat.lor b 0x55) = b := by decide

set_option maxRecDepth 10000 in
/-- For a byte `b`, the two dual-encoded bytes sum to `b + 0xFF`. -/
theorem add_lor_aa_55 : ∀ b : Nat, b < 256 →
    Nat.lor b 0xaa + Nat.lor b 0x55 = b + 0xff := by decide

/-- Recombining a high and a low byte with shift-and-or is plain arithmetic. -/
theorem lor_shiftLeft_eq_add (hi lo : Nat) (hlo : lo < 256) :
    Nat.lor (Nat.shiftLeft hi 8) lo = hi * 256 + lo := by
  show (hi <<< 8) ||| lo = hi * 256 + lo
  apply Nat.eq_of_testBit_eq
  intro j
  have hrw : hi * 256 + lo = 2 ^ 8 * hi + lo := by ring
  rw [Nat.testBit_lor, Nat.testBit_shiftLeft, hrw,
    Nat.testBit_mul_pow_two_add hi (show lo < 2 ^ 8 by omega) j]
  by_cases hj : j < 8
  · simp [hj, Nat.not_le.mpr hj]
  · have hfalse : lo.testBit j = false :=
      Nat.testBit_lt_two_pow
        (lt_of_lt_of_le (show lo < 2 ^ 8 by omega)
          (Nat.pow_le_pow_right (by omega) (by omega)))
    simp [hj, Nat.le_of_not_lt hj, hfalse]

/-- `uidcpy` from `rdm/utils.c` viewed as byte extraction: the six big-endian
wire bytes of a host-order UID (`rdm_uidcpy(uid, &header->src_uid)` in
`dmx_write_rdm`). -/
def uid_to_bytes (u : RdmUid) : Nat → Nat
  | 0 => u.man_id / 256 % 256
  | 1 => u.man_id % 256
  | 2 => u.dev_id / 16777216 % 256
  | 3 => u.dev_id / 65536 % 256
  | 4 => u.dev_id / 256 % 256
  | 5 => u.dev_id % 256
  | _ => 0

/-- The `uint16_t` checksum accumulated by the discovery-response branch of
`dmx_write_rdm` (`esp_dmx.c` line 296): `checksum += uid[j] + (0xaa | 0x55)`
over the six UID bytes. -/
def dub_write_checksum (u : Nat → Nat) : Nat → Nat
  | 0 => 0
  | j + 1 => (dub_write_checksum u j + (u j + Nat.lor 0xaa 0x55)) % 65536

theorem dub_write_checksum_eq (u : Nat → Nat) (n : Nat) :
    dub_write_checksum u n = checksum16 (fun j => u j + Nat.lor 0xaa 0x55) n := by
  induction n with
  | zero => rfl
  | succ n ih => simp [dub_write_checksum, checksum16, ih]

/-- The driver buffer written by the discovery-response branch of
`dmx_write_rdm` (`esp_dmx.c` lines 277–308): seven `0xFE` preamble bytes, the
`0xAA` delimiter, each UID byte emitted as `b|0xAA` then `b|0x55`, then the
four checksum bytes `hi|0xAA, hi|0x55, lo|0xAA, lo|0x55`.  Positions ≥ 24
model the untouched remainder of the buffer as 0. -/
def dmx_write_rdm_dub (u : Nat → Nat) : Nat → Nat := fun i =>
  if i < 7 then RDM_PREAMBLE
  else if i = 7 then RDM_DELIMITER
  else if i < 20 then
    if (i - 8) % 2 = 0 then Nat.lor (u ((i - 8) / 2)) 0xaa
    else Nat.lor (u ((i - 8) / 2)) 0x55
  else if i = 20 then Nat.lor (dub_write_checksum u 6 / 256 % 256) 0xaa
  else if i = 21 then Nat.lor (dub_write_checksum u 6 / 256 % 256) 0x55
  else if i = 22 then Nat.lor (dub_write_checksum u 6 % 256) 0xaa
  else if i = 23 then Nat.lor (dub_write_checksum u 6 % 256) 0x55
  else 0

theorem uid_to_bytes_lt (u : RdmUid) : ∀ j, uid_to_bytes u j < 256 := by
  intro j
  match j with
  | 0 | 2 | 3 | 4 => exact Nat.mod_lt _ (by omega)
  | 1 | 5 => exact Nat.mod_lt _ (by omega)
  | (n + 6) => simp [uid_to_bytes]

theorem bswap16_comp (man : Nat) (h : man < 65536) :
    bswap16 (man / 256 % 256 + man % 256 * 256) = man := by
  simp only [bswap16]
  have h1 : man / 256 < 256 := by omega
  rw [Nat.mod_eq_of_lt h1]
  have h2 : (man / 256 + man % 256 * 256) % 256 = man / 256 := by omega
  have h3 : (man / 256 + man % 256 * 256) / 256 = man % 256 := by omega
  rw [h2, h3]
  omega

theorem bswap32_comp (dev : Nat) (h : dev < 4294967296) :
    bswap32 (dev / 16777216 % 256 + dev / 65536 % 256 * 256 +
      dev / 256 % 256 * 65536 + dev % 256 * 16777216) = dev := by
  simp only [bswap32]
  have h1 : dev / 16777216 < 256 := by omega
  rw [Nat.mod_eq_of_lt h1]
  have e2 : dev / 65536 % 256 = dev % 16777216 / 65536 := by omega
  have e3 : dev / 256 % 256 = dev % 65536 / 256 := by omega
  rw [e2, e3]
  set X := dev / 16777216 + dev % 16777216 / 65536 * 256 +
    dev % 65536 / 256 * 65536 + dev % 256 * 16777216 with hX
  have d1 : X / 256 = dev % 16777216 / 65536 + dev % 65536 / 256 * 256 +
      dev % 256 * 65536 := by omega
  have d2 : X / 65536 = dev % 65536 / 256 + dev % 256 * 256 := by omega
  have d3 : X / 16777216 = dev % 256 := by omega
  rw [d1, d2, d3]
  have m0 : X % 256 = dev / 16777216 := by omega
  have m1 : (dev % 16777216 / 65536 + dev % 65536 / 256 * 256 +
      dev % 256 * 65536) % 256 = dev % 16777216 / 65536 := by omega
  have m2 : (dev % 65536 / 256 + dev % 256 * 256) % 256 =
      dev % 65536 / 256 := by omega
  have m3 : dev % 256 % 256 = dev % 256 := by omega
  rw [m0, m1, m2, m3]
  omega

/-- C3: dual-byte round trip of the discovery-response framing.  Encoding a
UID with `dmx_write_rdm`'s discovery-response branch and decoding with
`dmx_read_rdm` recovers the UID, the decoded checksum check passes (the read
size is the full 24 bytes), and the transmitted checksum is the sum of the six
UID bytes plus `0xFF` per byte. -/
theorem dub_roundtrip (u : RdmUid)
    (hman : u.man_id < 65536) (hdev : u.dev_id < 4294967296) :
    dub_write_checksum (uid_to_bytes u) 6 =
      sumBytes (uid_to_bytes u) 6 + 6 * 0xff ∧
    (dmx_read_rdm (dmx_write_rdm_dub (uid_to_bytes u))).read = 7 + 1 + 16 ∧
    ((dmx_read_rdm (dmx_write_rdm_dub (uid_to_bytes u))).header.map
      RdmHeader.src_uid) = some u := by
  obtain ⟨man, dev⟩ := u
  simp only at hman hdev
  set b := uid_to_bytes ⟨man, dev⟩ with hbdef
  have hb : ∀ j, b j < 256 := uid_to_bytes_lt ⟨man, dev⟩
  have h0 := hb 0
  have h1 := hb 1
  have h2 := hb 2
  have h3 := hb 3
  have h4 := hb 4
  have h5 := hb 5
  set d := dmx_write_rdm_dub b with hddef
  -- the byte values written by the encoder
  have he0 : d 8 = Nat.lor (b 0) 0xaa := by simp [hddef, dmx_write_rdm_dub]
  have he1 : d 9 = Nat.lor (b 0) 0x55 := by simp [hddef, dmx_write_rdm_dub]
  have he2 : d 10 = Nat.lor (b 1) 0xaa := by simp [hddef, dmx_write_rdm_dub]
  have he3 : d 11 = Nat.lor (b 1) 0x55 := by simp [hddef, dmx_write_rdm_dub]
  have he4 : d 12 = Nat.lor (b 2) 0xaa := by simp [hddef, dmx_write_rdm_dub]
  have he5 : d 13 = Nat.lor (b 2) 0x55 := by simp [hddef, dmx_write_rdm_dub]
  have he6 : d 14 = Nat.lor (b 3) 0xaa := by simp [hddef, dmx_write_rdm_dub]
  have he7 : d 15 = Nat.lor (b 3) 0x55 := by simp [hddef, dmx_write_rdm_dub]
  have he8 : d 16 = Nat.lor (b 4) 0xaa := by simp [hddef, dmx_write_rdm_dub]
  have he9 : d 17 = Nat.lor (b 4) 0x55 := by simp [hddef, dmx_write_rdm_dub]
  have he10 : d 18 = Nat.lor (b 5) 0xaa := by simp [hddef, dmx_write_rdm_dub]
  have he11 : d 19 = Nat.lor (b 5) 0x55 := by simp [hddef, dmx_write_rdm_dub]
  have he12 : d 20 = Nat.lor (dub_write_checksum b 6 / 256 % 256) 0xaa := by
    simp [hddef, dmx_write_rdm_dub]
  have he13 : d 21 = Nat.lor (dub_write_checksum b 6 / 256 % 256) 0x55 := by
    simp [hddef, dmx_write_rdm_dub]
  have he14 : d 22 = Nat.lor (dub_write_checksum b 6 % 256) 0xaa := by
    simp [hddef, dmx_write_rdm_dub]
  have he15 : d 23 = Nat.lor (dub_write_checksum b 6 % 256) 0x55 := by
    simp [hddef, dmx_write_rdm_dub]
  have hlor : Nat.lor 0xaa 0x55 = 255 := by decide
  -- the transmitted checksum is the plain sum (no 16-bit wraparound occurs)
  have hcs : dub_write_checksum b 6 = sumBytes b 6 + 6 * 0xff := by
    rw [dub_write_checksum_eq, checksum16_eq_sumBytes_mod]
    simp only [sumBytes, hlor]
    omega
  have hcslt : dub_write_checksum b 6 < 65536 := by
    simp only [sumBytes] at hcs
    omega
  refine ⟨hcs, ?_⟩
  -- evaluate `dmx_read_rdm` on the encoded buffer
  have hd0 : d 0 = RDM_PREAMBLE := by simp [hddef, dmx_write_rdm_dub]
  have hguard1 : ¬(load16LE d 0 ≠ Nat.lor RDM_SC (Nat.shiftLeft RDM_SUB_SC 8) ∧
      d 0 ≠ RDM_PREAMBLE ∧ d 0 ≠ RDM_DELIMITER) := by
    rintro ⟨-, hfe, -⟩
    exact hfe hd0
  have hpl : get_preamble_len d = 7 := by
    simp [get_preamble_len, hddef, dmx_write_rdm_dub, RDM_PREAMBLE, RDM_DELIMITER]
  have hng : ¬((d 0 = RDM_PREAMBLE ∨ d 0 = RDM_DELIMITER) ∧
      get_preamble_len d > 7) := by
    rintro ⟨-, hgt⟩
    omega
  have hnotsc : d 0 ≠ RDM_SC := by
    rw [hd0]
    decide
  -- the decoded bytes recover the UID bytes
  have hbuf0 : Nat.land (d 8) (d 9) = b 0 := by
    rw [he0, he1]
    exact land_lor_aa_55 _ h0
  have hbuf1 : Nat.land (d 10) (d 11) = b 1 := by
    rw [he2, he3]
    exact land_lor_aa_55 _ h1
  have hbuf2 : Nat.land (d 12) (d 13) = b 2 := by
    rw [he4, he5]
    exact land_lor_aa_55 _ h2
  have hbuf3 : Nat.land (d 14) (d 15) = b 3 := by
    rw [he6, he7]
    exact land_lor_aa_55 _ h3
  have hbuf4 : Nat.land (d 16) (d 17) = b 4 := by
    rw [he8, he9]
    exact land_lor_aa_55 _ h4
  have hbuf5 : Nat.land (d 18) (d 19) = b 5 := by
    rw [he10, he11]
    exact land_lor_aa_55 _ h5
  -- index-normalised forms of the byte facts (definitional casts)
  have he0' : d (7 + 1 + 0) = Nat.lor (b 0) 0xaa := he0
  have he1' : d (7 + 1 + 1) = Nat.lor (b 0) 0x55 := he1
  have he2' : d (7 + 1 + 2) = Nat.lor (b 1) 0xaa := he2
  have he3' : d (7 + 1 + 3) = Nat.lor (b 1) 0x55 := he3
  have he4' : d (7 + 1 + 4) = Nat.lor (b 2) 0xaa := he4
  have he5' : d (7 + 1 + 5) = Nat.lor (b 2) 0x55 := he5
  have he6' : d (7 + 1 + 6) = Nat.lor (b 3) 0xaa := he6
  have he7' : d (7 + 1 + 7) = Nat.lor (b 3) 0x55 := he7
  have he8' : d (7 + 1 + 8) = Nat.lor (b 4) 0xaa := he8
  have he9' : d (7 + 1 + 9) = Nat.lor (b 4) 0x55 := he9
  have he10' : d (7 + 1 + 10) = Nat.lor (b 5) 0xaa := he10
  have he11' : d (7 + 1 + 11) = Nat.lor (b 5) 0x55 := he11
  have he12' : d (7 + 1 + 12) = Nat.lor (dub_write_checksum b 6 / 256 % 256) 0xaa :=
    he12
  have he13' : d (7 + 1 + 13) = Nat.lor (dub_write_checksum b 6 / 256 % 256) 0x55 :=
    he13
  have he14' : d (7 + 1 + 14) = Nat.lor (dub_write_checksum b 6 % 256) 0xaa := he14
  have he15' : d (7 + 1 + 15) = Nat.lor (dub_write_checksum b 6 % 256) 0x55 := he15
  -- the checksum recomputed by the decoder equals the transmitted one
  have hsum : checksum16 (fun i => d (7 + 1 + i)) 12 = dub_write_checksum b 6 := by
    rw [checksum16_eq_sumBytes_mod, hcs]
    simp only [sumBytes]
    rw [he0', he1', he2', he3', he4', he5', he6', he7', he8', he9', he10', he11']
    have k0 := add_lor_aa_55 (b 0) h0
    have k1 := add_lor_aa_55 (b 1) h1
    have k2 := add_lor_aa_55 (b 2) h2
    have k3 := add_lor_aa_55 (b 3) h3
    have k4 := add_lor_aa_55 (b 4) h4
    have k5 := add_lor_aa_55 (b 5) h5
    omega
  have hck : dub_checksum_ok d 7 = true := by
    simp only [dub_checksum_ok, beq_iff_eq]
    rw [hsum, he12', he13', he14', he15',
      land_lor_aa_55 _ (Nat.mod_lt _ (by omega)),
      land_lor_aa_55 _ (Nat.mod_lt _ (by omega)),
      lor_shiftLeft_eq_add _ _ (Nat.mod_lt _ (by omega))]
    omega
  -- the reassembled UID equals the original one
  have hbuf0' : Nat.land (d (7 + 1 + 2 * 0)) (d (7 + 1 + (2 * 0 + 1))) = b 0 :=
    hbuf0
  have hbuf1' :
      Nat.land (d (7 + 1 + 2 * (0 + 1))) (d (7 + 1 + (2 * (0 + 1) + 1))) = b 1 :=
    hbuf1
  have hbuf2' : Nat.land (d (7 + 1 + 2 * 2)) (d (7 + 1 + (2 * 2 + 1))) = b 2 :=
    hbuf2
  have hbuf3' :
      Nat.land (d (7 + 1 + 2 * (2 + 1))) (d (7 + 1 + (2 * (2 + 1) + 1))) = b 3 :=
    hbuf3
  have hbuf4' :
      Nat.land (d (7 + 1 + 2 * (2 + 2))) (d (7 + 1 + (2 * (2 + 2) + 1))) = b 4 :=
    hbuf4
  have hbuf5' :
      Nat.land (d (7 + 1 + 2 * (2 + 3))) (d (7 + 1 + (2 * (2 + 3) + 1))) = b 5 :=
    hbuf5
  have hman' :
      bswap16 (load16LE
        (fun j => Nat.land (d (7 + 1 + 2 * j)) (d (7 + 1 + (2 * j + 1)))) 0) =
        man := by
    simp only [load16LE]
    rw [hbuf0', hbuf1']
    simp only [hbdef, uid_to_bytes]
    exact bswap16_comp man hman
  have hdev' :
      bswap32 (load32LE
        (fun j => Nat.land (d (7 + 1 + 2 * j)) (d (7 + 1 + (2 * j + 1)))) 2) =
        dev := by
    simp only [load32LE]
    rw [hbuf2', hbuf3', hbuf4', hbuf5']
    simp only [hbdef, uid_to_bytes]
    exact bswap32_comp dev hdev
  have hmain : dmx_read_rdm d = ⟨7 + 1 + 16, some ⟨0, ⟨0, 0⟩, ⟨man, dev⟩, 0, 0,
      0, RDM_SUB_DEVICE_ROOT, RDM_CC_DISC_COMMAND_RESPONSE,
      RDM_PID_DISC_UNIQUE_BRANCH, 7 + 1 + 16⟩⟩ := by
    simp only [dmx_read_rdm, if_neg hguard1, if_neg hng, if_neg hnotsc, hpl, hck,
      eq_self_iff_true, if_true]
    rw [hman', hdev']
    rw [if_neg (show ¬((d 0 = RDM_PREAMBLE ∨ d 0 = RDM_DELIMITER) ∧ 7 > 7) by
      rintro ⟨-, hgt⟩
      omega)]
  rw [hmain]
  exact ⟨rfl, rfl⟩

/-- Witness for C3: round trip of the concrete UID `05e0:12345678`. -/
theorem dub_roundtrip_witness :
    (dmx_read_rdm (dmx_write_rdm_dub (uid_to_bytes ⟨0x05e0, 0x12345678⟩))).read =
        7 + 1 + 16 ∧
      ((dmx_read_rdm
          (dmx_write_rdm_dub (uid_to_bytes ⟨0x05e0, 0x12345678⟩))).header.map
        RdmHeader.src_uid) = some ⟨0x05e0, 0x12345678⟩ :=
  ⟨(dub_roundtrip ⟨0x05e0, 0x12345678⟩ (by decide) (by norm_num)).2.1,
    (dub_roundtrip ⟨0x05e0, 0x12345678⟩ (by decide) (by norm_num)).2.2⟩

/-! ### Responder dispatch (`dmx_receive`, `esp_dmx.c` lines 483–611) -/

/-- `rdm_pid_cc_t` constants from `rdm/types.h`. -/
def RDM_CC_DISC : Nat := 0x00

def RDM_CC_GET : Nat := 0x01

def RDM_CC_SET : Nat := 0x02

/-- NACK-reason constants from `rdm/types.h`. -/
def RDM_NR_UNKNOWN_PID : Nat := 0x0000

def RDM_NR_FORMAT_ERROR : Nat := 0x0001

def RDM_NR_HARDWARE_FAULT : Nat := 0x0002

def RDM_NR_UNSUPPORTED_COMMAND_CLASS : Nat := 0x0005

def RDM_NR_SUB_DEVICE_OUT_OF_RANGE : Nat := 0x0009

/-- `rdm_response_type_t` constants from `rdm/types.h` (the driver-side
callback returns a C `int`, so the type is modelled as `Int`). -/
def RDM_RESPONSE_TYPE_NONE : Int := -1

def RDM_RESPONSE_TYPE_ACK : Int := 0x00

def RDM_RESPONSE_TYPE_ACK_TIMER : Int := 0x01

def RDM_RESPONSE_TYPE_NACK_REASON : Int := 0x02

def RDM_RESPONSE_TYPE_ACK_OVERFLOW : Int := 0x03

/-- One entry of `driver->rdm_cbs[]`: the fields of its PID description that
the dispatch consults (`desc.pid` and `desc.cc`). -/
structure RdmCbEntry where
  pid : Nat
  cc : Nat
  deriving DecidableEq, Repr

/-- The callback-search loop of `dmx_receive` (`esp_dmx.c` lines 487–492):
the first index whose description PID matches, or `num_rdm_cbs` when none
does. -/
def find_cb_num (cbs : List RdmCbEntry) (pid : Nat) : Nat :=
  cbs.findIdx (fun cb => cb.pid == pid)

/-- Outcome of the validation chain in `dmx_receive` (lines 504–526): either a
NACK with a reason, or the driver-side handler is invoked. -/
inductive RdmDispatch where
  | nackReason (nr : Nat)
  | callHandler
  deriving DecidableEq, Repr

/-- The responder validation chain of `dmx_receive` (`esp_dmx.c` lines
487–526), deciding how the device responds to a request that targets it. -/
def responder_decision (cbs : List RdmCbEntry) (h : RdmHeader) : RdmDispatch :=
  let cb_num := find_cb_num cbs h.pid
  let desc := cbs.getD cb_num ⟨0, 0⟩
  if h.pdl > 231 ∨ h.port_id = 0 ∨ uid_is_broadcast h.src_uid = true then
    .nackReason RDM_NR_FORMAT_ERROR
  else if cb_num = cbs.length then
    .nackReason RDM_NR_UNKNOWN_PID
  else if (h.cc = RDM_CC_DISC_COMMAND ∧ desc.cc ≠ RDM_CC_DISC) ∨
      (h.cc = RDM_CC_GET_COMMAND ∧ Nat.land desc.cc RDM_CC_GET = 0) ∨
      (h.cc = RDM_CC_SET_COMMAND ∧ Nat.land desc.cc RDM_CC_SET = 0) then
    .nackReason RDM_NR_UNSUPPORTED_COMMAND_CLASS
  else if (h.sub_device > 512 ∧ h.sub_device ≠ RDM_SUB_DEVICE_ALL) ∨
      (h.sub_device = RDM_SUB_DEVICE_ALL ∧ h.cc = RDM_CC_GET_COMMAND) then
    .nackReason RDM_NR_SUB_DEVICE_OUT_OF_RANGE
  else
    .callHandler

theorem find_cb_num_eq_length_iff (cbs : List RdmCbEntry) (pid : Nat) :
    find_cb_num cbs pid = cbs.length ↔ ∀ e ∈ cbs, e.pid ≠ pid := by
  simp [find_cb_num, List.findIdx_eq_length]

/-- C1: the responder dispatch applies its validation checks in this exact
order, first match winning: (3) `pdl > 231` or `port_id == 0` or broadcast
source UID → `FORMAT_ERROR`; (4) no registered callback matches the PID →
`UNKNOWN_PID`; (5) the command class is not supported by the matched PID →
`UNSUPPORTED_COMMAND_CLASS`; (6) bad sub-device → `SUB_DEVICE_OUT_OF_RANGE`;
only otherwise is the driver-side handler invoked. -/
theorem responder_dispatch_order (cbs : List RdmCbEntry) (h : RdmHeader)
    (hcc : h.cc = RDM_CC_DISC_COMMAND ∨ h.cc = RDM_CC_GET_COMMAND ∨
      h.cc = RDM_CC_SET_COMMAND) :
    ((h.pdl > 231 ∨ h.port_id = 0 ∨ uid_is_broadcast h.src_uid = true) →
      responder_decision cbs h = .nackReason RDM_NR_FORMAT_ERROR) ∧
    (¬(h.pdl > 231 ∨ h.port_id = 0 ∨ uid_is_broadcast h.src_uid = true) →
      (∀ e ∈ cbs, e.pid ≠ h.pid) →
      responder_decision cbs h = .nackReason RDM_NR_UNKNOWN_PID) ∧
    (¬(h.pdl > 231 ∨ h.port_id = 0 ∨ uid_is_broadcast h.src_uid = true) →
      ¬(∀ e ∈ cbs, e.pid ≠ h.pid) →
      ((h.cc = RDM_CC_DISC_COMMAND ∧
          (cbs.getD (find_cb_num cbs h.pid) ⟨0, 0⟩).cc ≠ RDM_CC_DISC) ∨
        (h.cc = RDM_CC_GET_COMMAND ∧
          Nat.land (cbs.getD (find_cb_num cbs h.pid) ⟨0, 0⟩).cc RDM_CC_GET = 0) ∨
        (h.cc = RDM_CC_SET_COMMAND ∧
          Nat.land (cbs.getD (find_cb_num cbs h.pid) ⟨0, 0⟩).cc RDM_CC_SET = 0)) →
      responder_decision cbs h = .nackReason RDM_NR_UNSUPPORTED_COMMAND_CLASS) ∧
    (¬(h.pdl > 231 ∨ h.port_id = 0 ∨ uid_is_broadcast h.src_uid = true) →
      ¬(∀ e ∈ cbs, e.pid ≠ h.pid) →
      ¬((h.cc = RDM_CC_DISC_COMMAND ∧
          (cbs.getD (find_cb_num cbs h.pid) ⟨0, 0⟩).cc ≠ RDM_CC_DISC) ∨
        (h.cc = RDM_CC_GET_COMMAND ∧
          Nat.land (cbs.getD (find_cb_num cbs h.pid) ⟨0, 0⟩).cc RDM_CC_GET = 0) ∨
        (h.cc = RDM_CC_SET_COMMAND ∧
          Nat.land (cbs.getD (find_cb_num cbs h.pid) ⟨0, 0⟩).cc RDM_CC_SET = 0)) →
      ((h.sub_device > 512 ∧ h.sub_device ≠ RDM_SUB_DEVICE_ALL) ∨
        (h.sub_device = RDM_SUB_DEVICE_ALL ∧ h.cc = RDM_CC_GET_COMMAND)) →
      responder_decision cbs h = .nackReason RDM_NR_SUB_DEVICE_OUT_OF_RANGE) ∧
    (¬(h.pdl > 231 ∨ h.port_id = 0 ∨ uid_is_broadcast h.src_uid = true) →
      ¬(∀ e ∈ cbs, e.pid ≠ h.pid) →
      ¬((h.cc = RDM_CC_DISC_COMMAND ∧
          (cbs.getD (find_cb_num cbs h.pid) ⟨0, 0⟩).cc ≠ RDM_CC_DISC) ∨
        (h.cc = RDM_CC_GET_COMMAND ∧
          Nat.land (cbs.getD (find_cb_num cbs h.pid) ⟨0, 0⟩).cc RDM_CC_GET = 0) ∨
        (h.cc = RDM_CC_SET_COMMAND ∧
          Nat.land (cbs.getD (find_cb_num cbs h.pid) ⟨0, 0⟩).cc RDM_CC_SET = 0)) →
      ¬((h.sub_device > 512 ∧ h.sub_device ≠ RDM_SUB_DEVICE_ALL) ∨
        (h.sub_device = RDM_SUB_DEVICE_ALL ∧ h.cc = RDM_CC_GET_COMMAND)) →
      responder_decision cbs h = .callHandler) := by
  refine ⟨?_, ?_, ?_, ?_, ?_⟩
  · intro hf
    simp only [responder_decision]
    rw [if_pos hf]
  · intro hnf hu
    simp only [responder_decision]
    rw [if_neg hnf, if_pos ((find_cb_num_eq_length_iff cbs h.pid).mpr hu)]
  · intro hnf hnu hc
    simp only [responder_decision]
    rw [if_neg hnf,
      if_neg (fun hh => hnu ((find_cb_num_eq_length_iff cbs h.pid).mp hh)),
      if_pos hc]
  · intro hnf hnu hnc hs
    simp only [responder_decision]
    rw [if_neg hnf,
      if_neg (fun hh => hnu ((find_cb_num_eq_length_iff cbs h.pid).mp hh)),
      if_neg hnc, if_pos hs]
  · intro hnf hnu hnc hns
    simp only [responder_decision]
    rw [if_neg hnf,
      if_neg (fun hh => hnu ((find_cb_num_eq_length_iff cbs h.pid).mp hh)),
      if_neg hnc, if_neg hns]

/-- Witness for C1: a GET for an unregistered PID is NACKed `UNKNOWN_PID`. -/
theorem responder_dispatch_order_witness :
    responder_decision [⟨0x1000, 3⟩]
        ⟨26, ⟨1, 2⟩, ⟨3, 4⟩, 0, 1, 0, 0, 0x20, 0x9999, 0⟩ =
      .nackReason RDM_NR_UNKNOWN_PID :=
  (responder_dispatch_order [⟨0x1000, 3⟩]
    ⟨26, ⟨1, 2⟩, ⟨3, 4⟩, 0, 1, 0, 0, 0x20, 0x9999, 0⟩
    (by decide)).2.1 (by decide) (by decide)

/-- The post-dispatch forcing of the response type in `dmx_receive`
(`esp_dmx.c` lines 580–586): do not respond to non-discovery broadcasts and
do not NACK discovery commands. -/
def force_response_type (dest_uid : RdmUid) (pid cc : Nat) (rt : Int) : Int :=
  if (uid_is_broadcast dest_uid = true ∧ pid ≠ RDM_PID_DISC_UNIQUE_BRANCH) ∨
      (rt = RDM_RESPONSE_TYPE_NACK_REASON ∧ cc = RDM_CC_DISC_COMMAND) then
    RDM_RESPONSE_TYPE_NONE
  else rt

/-- The send guard of `dmx_receive` (`esp_dmx.c` line 599): a response packet
is written and sent only when the (forced) response type is not `NONE`. -/
def dispatch_sends_response (dest_uid : RdmUid) (pid cc : Nat) (rt : Int) :
    Bool :=
  force_response_type dest_uid pid cc rt != RDM_RESPONSE_TYPE_NONE

/-- C4: a broadcast destination with a PID other than `DISC_UNIQUE_BRANCH`
forces the response type to `NONE`; a `NACK_REASON` response to a
`DISC_COMMAND` request is forced to `NONE`; hence a request addressed to
`BROADCAST_ALL` never produces a response unless its PID is
`DISC_UNIQUE_BRANCH`. -/
theorem broadcast_response_policy (dest_uid : RdmUid) (pid cc : Nat) (rt : Int) :
    (uid_is_broadcast dest_uid = true → pid ≠ RDM_PID_DISC_UNIQUE_BRANCH →
      force_response_type dest_uid pid cc rt = RDM_RESPONSE_TYPE_NONE) ∧
    (rt = RDM_RESPONSE_TYPE_NACK_REASON → cc = RDM_CC_DISC_COMMAND →
      force_response_type dest_uid pid cc rt = RDM_RESPONSE_TYPE_NONE) ∧
    (dest_uid = RDM_UID_BROADCAST_ALL →
      dispatch_sends_response dest_uid pid cc rt = true →
      pid = RDM_PID_DISC_UNIQUE_BRANCH) := by
  refine ⟨?_, ?_, ?_⟩
  · intro hb hp
    simp only [force_response_type]
    rw [if_pos (Or.inl ⟨hb, hp⟩)]
  · intro hr hc
    simp only [force_response_type]
    rw [if_pos (Or.inr ⟨hr, hc⟩)]
  · intro hball hsend
    by_contra hp
    have hb : uid_is_broadcast dest_uid = true := by
      rw [hball]
      decide
    have hforced : force_response_type dest_uid pid cc rt =
        RDM_RESPONSE_TYPE_NONE := by
      simp only [force_response_type]
      rw [if_pos (Or.inl ⟨hb, hp⟩)]
    rw [dispatch_sends_response, hforced] at hsend
    simp at hsend

/-- Witness for C4: a broadcast SET to `DMX_START_ADDRESS` gets no response. -/
theorem broadcast_response_policy_witness :
    force_response_type RDM_UID_BROADCAST_ALL 0x00f0 0x30
        RDM_RESPONSE_TYPE_ACK = RDM_RESPONSE_TYPE_NONE :=
  (broadcast_response_policy RDM_UID_BROADCAST_ALL 0x00f0 0x30
    RDM_RESPONSE_TYPE_ACK).1 (by decide) (by decide)

/-- The response-header rewrite of `dmx_receive` (`esp_dmx.c` lines 588–596).
The union field `port_id` receives `response_type`, a C `int` stored into a
`uint8_t` (wrapping mod 256); `cc` and `message_len` are `uint8_t` fields. -/
def build_response_header (req : RdmHeader) (my_uid : RdmUid) (rt : Int)
    (pdl_out : Nat) : RdmHeader :=
  { message_len := (24 + pdl_out) % 256
    dest_uid := req.src_uid
    src_uid := my_uid
    tn := req.tn
    port_id := (rt % 256).toNat
    message_count := 0
    sub_device := req.sub_device
    cc := (req.cc + 1) % 256
    pid := req.pid
    pdl := pdl_out }

/-- C7: the response header swaps the UIDs (destination becomes the request's
source, source becomes this device's UID), increments the command class,
sets `message_len = 24 + pdl_out`, `pdl = pdl_out`, the response type and a
zero message count, and preserves `tn`, `sub_device` and `pid`. -/
theorem build_response_header_fields (req : RdmHeader) (my_uid : RdmUid)
    (rt : Int) (pdl_out : Nat) (hrt0 : 0 ≤ rt) (hrt1 : rt < 256)
    (hpdl : pdl_out ≤ 231)
    (hcc : req.cc = RDM_CC_DISC_COMMAND ∨ req.cc = RDM_CC_GET_COMMAND ∨
      req.cc = RDM_CC_SET_COMMAND) :
    (build_response_header req my_uid rt pdl_out).dest_uid = req.src_uid ∧
    (build_response_header req my_uid rt pdl_out).src_uid = my_uid ∧
    (build_response_header req my_uid rt pdl_out).cc = req.cc + 1 ∧
    (build_response_header req my_uid rt pdl_out).message_len = 24 + pdl_out ∧
    (build_response_header req my_uid rt pdl_out).pdl = pdl_out ∧
    (build_response_header req my_uid rt pdl_out).port_id = rt.toNat ∧
    (build_response_header req my_uid rt pdl_out).message_count = 0 ∧
    (build_response_header req my_uid rt pdl_out).tn = req.tn ∧
    (build_response_header req my_uid rt pdl_out).sub_device = req.sub_device ∧
    (build_response_header req my_uid rt pdl_out).pid = req.pid := by
  have hccv : req.cc = 0x10 ∨ req.cc = 0x20 ∨ req.cc = 0x30 := hcc
  refine ⟨rfl, rfl, ?_, ?_, rfl, ?_, rfl, rfl, rfl, rfl⟩
  · show (req.cc + 1) % 256 = req.cc + 1
    simp only [RDM_CC_DISC_COMMAND, RDM_CC_GET_COMMAND, RDM_CC_SET_COMMAND]
      at hccv
    omega
  · show (24 + pdl_out) % 256 = 24 + pdl_out
    omega
  · show (rt % 256).toNat = rt.toNat
    omega

/-- Witness for C7 at a concrete GET request header. -/
theorem build_response_header_fields_witness :
    (build_response_header ⟨26, ⟨1, 2⟩, ⟨3, 4⟩, 7, 1, 0, 0, 0x20, 0x1000, 2⟩
        ⟨9, 10⟩ RDM_RESPONSE_TYPE_ACK 2).cc = 0x20 + 1 ∧
    (build_response_header ⟨26, ⟨1, 2⟩, ⟨3, 4⟩, 7, 1, 0, 0, 0x20, 0x1000, 2⟩
        ⟨9, 10⟩ RDM_RESPONSE_TYPE_ACK 2).message_len = 24 + 2 :=
  ⟨((build_response_header_fields ⟨26, ⟨1, 2⟩, ⟨3, 4⟩, 7, 1, 0, 0, 0x20, 0x1000, 2⟩
      ⟨9, 10⟩ RDM_RESPONSE_TYPE_ACK 2 (by decide) (by decide) (by decide)
      (Or.inr (Or.inl rfl))).2.2.1),
    ((build_response_header_fields ⟨26, ⟨1, 2⟩, ⟨3, 4⟩, 7, 1, 0, 0, 0x20, 0x1000, 2⟩
      ⟨9, 10⟩ RDM_RESPONSE_TYPE_ACK 2 (by decide) (by decide) (by decide)
      (Or.inr (Or.inl rfl))).2.2.2.1)⟩

/-! ### Message data block codec (`rdm/mdb.c`) -/

/-- `rdm_mdb_t`: a parameter-data buffer and its length. -/
structure RdmMdb where
  pd : Nat → Nat
  pdl : Nat

/-- `rdm_disc_mute_t` from `rdm/types.h` (host representation). -/
structure RdmDiscMute where
  managed_proxy : Bool
  sub_device : Bool
  boot_loader : Bool
  proxied_device : Bool
  binding_uid : RdmUid
  deriving DecidableEq, Repr

/-- `rdm_decode_mute` from `rdm/mdb.c` (lines 188–202): decodes the four
control-field flags from bits 0–3 of the first byte of the parameter data and
— per the `FIXME` line in the source — always sets `binding_uid` to
`RDM_UID_NULL` (the decode of the wire bytes when `pdl > 2` is commented
out).  Returns the number of decoded parameters and the decoded struct. -/
def rdm_decode_mute (mdb : RdmMdb) : Nat × Option RdmDiscMute :=
  if mdb.pdl ≠ 0 then
    (1, some
      { managed_proxy := (mdb.pd 0).testBit 0
        sub_device := (mdb.pd 0).testBit 1
        boot_loader := (mdb.pd 0).testBit 2
        proxied_device := (mdb.pd 0).testBit 3
        binding_uid := RDM_UID_NULL })
  else (0, none)

/-- C5 (against the code): on a mute parameter block with `pdl = 8` whose wire
bytes carry the binding UID `0102:03040506`, `rdm_decode_mute` decodes the
four control flags from the first byte but leaves `binding_uid` as the NULL
UID instead of the wire value — the `pdl > 2` decode is unfinished in the
source (`// FIXME`). -/
theorem rdm_decode_mute_binding_uid_not_decoded :
    (rdm_decode_mute
        ⟨fun i => if i = 0 then 0x0f else if i = 1 then 0 else i - 1, 8⟩).2 =
      some ⟨true, true, true, true, RDM_UID_NULL⟩ ∧
    RDM_UID_NULL ≠ (⟨0x0102, 0x03040506⟩ : RdmUid) := by
  constructor
  · rfl
  · decide

/-! ### Asynchronous writes (`esp_dmx.c`: `dmx_write_offset`, `dmx_write_rdm`) -/

/-- Modelled from the spec: `DMX_PACKET_SIZE_MAX` is declared in `dmx/types.h`,
which is not among the sources; the spec (§3, §6) fixes the slot buffer at
513 bytes. -/
def DMX_PACKET_SIZE_MAX : Nat := 513

/-- Modelled from the spec: the flag bit `DMX_FLAGS_DRIVER_IS_SENDING` is
declared in `dmx/driver.h`, which is not among the sources; the spec (§3)
only says `flags` is a bitmask containing `DRIVER_IS_SENDING`, so an
arbitrary distinct bit is chosen (no claim depends on its position). -/
def DMX_FLAGS_DRIVER_IS_SENDING : Nat := 1

/-- The driver state touched by the write paths: `flags`, `rdm_type`, the
data buffer, `tx_size`, and the UART RTS level. -/
structure DmxDriver where
  flags : Nat
  rdm_type : Nat
  data : Nat → Nat
  tx_size : Nat
  uart_rts : Nat

/-- `dmx_write_offset` from `esp_dmx.c` (lines 179–214), returning the written
size and the updated driver state. -/
def dmx_write_offset (st : DmxDriver) (offset : Nat) (source : Nat → Nat)
    (size : Nat) : Nat × DmxDriver :=
  if ¬offset < DMX_PACKET_SIZE_MAX then (0, st)
  else if ¬size + offset > DMX_PACKET_SIZE_MAX ∧ size = 0 then (0, st)
  else
    -- Clamp size to the maximum DMX packet size
    let size1 := if size + offset > DMX_PACKET_SIZE_MAX then
      DMX_PACKET_SIZE_MAX - offset else size
    if Nat.land st.flags DMX_FLAGS_DRIVER_IS_SENDING ≠ 0 ∧ st.rdm_type ≠ 0 then
      -- Do not allow asynchronous writes when sending an RDM packet
      (0, st)
    else
      let st1 := if st.uart_rts = 1 then { st with uart_rts := 0 } else st
      (size1,
        { st1 with
          tx_size := offset + size1
          data := fun i =>
            if offset ≤ i ∧ i < offset + size1 then source (i - offset)
            else st1.data i })

/-- Modelled from the spec: `rdm_pd_emplace(header_ptr, "#cc01hbuubbbwbwb",
header, …)` (`esp_dmx.c` line 264) serialises the 24-byte wire header;
`rdm_pd_emplace` itself is declared in `rdm/utils.h`, which is not among the
sources.  Per spec §3 the wire layout is: start code `0xCC`, sub-start code
`0x01`, message length, destination UID (big-endian, 6 bytes), source UID
(big-endian, 6 bytes), transaction number, port ID / response type, message
count, sub-device (big-endian, 2 bytes), command class, PID (big-endian,
2 bytes), PDL. -/
def rdm_pd_emplace_header (h : RdmHeader) : Nat → Nat
  | 0 => RDM_SC
  | 1 => RDM_SUB_SC
  | 2 => h.message_len
  | 3 => uid_to_bytes h.dest_uid 0
  | 4 => uid_to_bytes h.dest_uid 1
  | 5 => uid_to_bytes h.dest_uid 2
  | 6 => uid_to_bytes h.dest_uid 3
  | 7 => uid_to_bytes h.dest_uid 4
  | 8 => uid_to_bytes h.dest_uid 5
  | 9 => uid_to_bytes h.src_uid 0
  | 10 => uid_to_bytes h.src_uid 1
  | 11 => uid_to_bytes h.src_uid 2
  | 12 => uid_to_bytes h.src_uid 3
  | 13 => uid_to_bytes h.src_uid 4
  | 14 => uid_to_bytes h.src_uid 5
  | 15 => h.tn
  | 16 => h.port_id
  | 17 => h.message_count
  | 18 => h.sub_device / 256 % 256
  | 19 => h.sub_device % 256
  | 20 => h.cc
  | 21 => h.pid / 256 % 256
  | 22 => h.pid % 256
  | 23 => h.pdl
  | _ => 0

/-- The `uint16_t` checksum of the standard-packet branch of `dmx_write_rdm`
(`esp_dmx.c` lines 269–272): starts at `RDM_SC + RDM_SUB_SC` and accumulates
the buffer bytes `[2, 2 + n)`. -/
def std_write_checksum (dbuf : Nat → Nat) : Nat → Nat
  | 0 => RDM_SC + RDM_SUB_SC
  | n + 1 => (std_write_checksum dbuf n + dbuf (2 + n)) % 65536

/-- The standard-packet branch of `dmx_write_rdm` (`esp_dmx.c` lines
259–276): emplace the header, copy at most 231 bytes of parameter data,
append the big-endian checksum, and set `tx_size`. -/
def dmx_write_rdm_std (st : DmxDriver) (h : RdmHeader) (pd : Nat → Nat) :
    Nat × DmxDriver :=
  let copy_size := if h.pdl ≤ 231 then h.pdl else 231
  let message_len := copy_size + 24
  let hdrBytes := rdm_pd_emplace_header { h with message_len := message_len }
  let afterPd : Nat → Nat := fun i =>
    if i < 24 then hdrBytes i
    else if i < 24 + copy_size then pd (i - 24)
    else st.data i
  let checksum := std_write_checksum afterPd (message_len - 2)
  let written := message_len + 2
  (written,
    { st with
      tx_size := written
      data := fun i =>
        if i < message_len then afterPd i
        else if i = message_len then checksum / 256 % 256
        else if i = message_len + 1 then checksum % 256
        else st.data i })

/-- The discovery-response branch of `dmx_write_rdm` (`esp_dmx.c` lines
277–308) wired into the driver state: the 24 encoded bytes overwrite the
start of the buffer and `tx_size` becomes 24. -/
def dmx_write_rdm_dub_branch (st : DmxDriver) (u : Nat → Nat) :
    Nat × DmxDriver :=
  (24,
    { st with
      tx_size := 24
      data := fun i => if i < 24 then dmx_write_rdm_dub u i else st.data i })

/-- `dmx_write_rdm` from `esp_dmx.c` (lines 234–315).  `header = none` models
a NULL header pointer (the UID is then taken from the first six bytes of
`pd`). -/
def dmx_write_rdm (st : DmxDriver) (header : Option RdmHeader)
    (pd : Nat → Nat) : Nat × DmxDriver :=
  if Nat.land st.flags DMX_FLAGS_DRIVER_IS_SENDING ≠ 0 then
    -- RDM writes must be synchronous to prevent data corruption
    (0, st)
  else
    let st1 := if st.uart_rts = 1 then { st with uart_rts := 0 } else st
    match header with
    | some h =>
      if ¬(h.cc = RDM_CC_DISC_COMMAND_RESPONSE ∧
          h.pid = RDM_PID_DISC_UNIQUE_BRANCH) then
        dmx_write_rdm_std st1 h pd
      else
        dmx_write_rdm_dub_branch st1 (uid_to_bytes h.src_uid)
    | none => dmx_write_rdm_dub_branch st1 pd

/-- C10: while a send is in progress, asynchronous writes are refused
atomically — with `DRIVER_IS_SENDING` set and `rdm_type ≠ 0`,
`dmx_write_offset` returns 0 and leaves the data buffer and `tx_size`
unchanged; with `DRIVER_IS_SENDING` set, `dmx_write_rdm` returns 0 and
leaves the data buffer and `tx_size` unchanged. -/
theorem write_refused_while_sending (st : DmxDriver) (offset size : Nat)
    (source pd : Nat → Nat) (header : Option RdmHeader)
    (hs : Nat.land st.flags DMX_FLAGS_DRIVER_IS_SENDING ≠ 0) :
    (st.rdm_type ≠ 0 →
      (dmx_write_offset st offset source size).1 = 0 ∧
      (dmx_write_offset st offset source size).2.data = st.data ∧
      (dmx_write_offset st offset source size).2.tx_size = st.tx_size) ∧
    ((dmx_write_rdm st header pd).1 = 0 ∧
      (dmx_write_rdm st header pd).2.data = st.data ∧
      (dmx_write_rdm st header pd).2.tx_size = st.tx_size) := by
  constructor
  · intro hr
    simp only [dmx_write_offset]
    by_cases h1 : ¬offset < DMX_PACKET_SIZE_MAX
    · rw [if_pos h1]
      exact ⟨rfl, rfl, rfl⟩
    · rw [if_neg h1]
      by_cases h2 : ¬size + offset > DMX_PACKET_SIZE_MAX ∧ size = 0
      · rw [if_pos h2]
        exact ⟨rfl, rfl, rfl⟩
      · rw [if_neg h2, if_pos ⟨hs, hr⟩]
        exact ⟨rfl, rfl, rfl⟩
  · simp only [dmx_write_rdm]
    rw [if_pos hs]
    exact ⟨rfl, rfl, rfl⟩

/-- Witness for C10 at a concrete busy driver state. -/
theorem write_refused_while_sending_witness :
    (dmx_write_offset ⟨1, 1, fun _ => 0, 0, 1⟩ 0 (fun _ => 7) 5).1 = 0 ∧
    (dmx_write_rdm ⟨1, 1, fun _ => 0, 0, 1⟩ none (fun _ => 0)).1 = 0 :=
  ⟨((write_refused_while_sending ⟨1, 1, fun _ => 0, 0, 1⟩ 0 5 (fun _ => 7)
      (fun _ => 0) none (by decide)).1 (by decide)).1,
    (write_refused_while_sending ⟨1, 1, fun _ => 0, 0, 1⟩ 0 5 (fun _ => 7)
      (fun _ => 0) none (by decide)).2.1⟩

/-! ### The format-string encoder `rdm_encode` (`rdm/utils.c` lines 59–167)

The format string is modelled as a `List Nat` of byte values; reads at or
past the C string's NUL terminator yield 0 (`fmt_char`).  Character codes:
`'b' = 98`, `'w' = 119`, `'d' = 100`, `'u' = 117`, `'v' = 118`, `'a' = 97`,
`'#' = 35`, `'h' = 104`, digits `48–57`.

Two spots of the C function have undefined behaviour and are mapped to the
`Option` value `none` instead of being given an arbitrary meaning: the
variable-length-string branch assigns `f = end_ptr` with `end_ptr`
uninitialised, and the integer-literal branch of the encode loop reads below
a stack variable.  The outer `while` loop of the encode phase can fail to
make progress (e.g. a variable string whose source byte is NUL), so it is
given fuel; exhausting the fuel also yields `none`. -/

/-- `isdigit` on a byte. -/
def c_isdigit (c : Nat) : Bool := 48 ≤ c && c ≤ 57

/-- A hexadecimal digit, as accepted by `strtol(…, 16)`. -/
def c_ishexdigit (c : Nat) : Bool :=
  (48 ≤ c && c ≤ 57) || (97 ≤ c && c ≤ 102) || (65 ≤ c && c ≤ 70)

/-- Reading byte `i` of the NUL-terminated format string. -/
def fmt_char (fmt : List Nat) (i : Nat) : Nat := fmt.getD i 0

/-- The digit run consumed by `strtol(…, 10)` starting at `i`: its value and
the position one past the last digit. -/
def parse_dec_aux (fmt : List Nat) : Nat → Nat → Nat → Nat × Nat
  | 0, i, acc => (acc, i)
  | fuel + 1, i, acc =>
    let c := fmt_char fmt i
    if c_isdigit c then parse_dec_aux fmt fuel (i + 1) (acc * 10 + (c - 48))
    else (acc, i)

def parse_dec (fmt : List Nat) (i : Nat) : Nat × Nat :=
  parse_dec_aux fmt (fmt.length + 1) i 0

/-- The hex-digit run consumed by `strtol(…, 16)` starting at `i`.  In
`rdm_encode` this is always called with `fmt[i] = '#'`, which is not a hex
digit, so it stops immediately with `end_ptr = i`. -/
def parse_hex_aux (fmt : List Nat) : Nat → Nat → Nat → Nat × Nat
  | 0, i, acc => (acc, i)
  | fuel + 1, i, acc =>
    let c := fmt_char fmt i
    if c_ishexdigit c then parse_hex_aux fmt fuel (i + 1) (acc * 16)
    else (acc, i)

def parse_hex (fmt : List Nat) (i : Nat) : Nat × Nat :=
  parse_hex_aux fmt (fmt.length + 1) i 0

/-- Outcome of the format-validation loop of `rdm_encode` (`rdm/utils.c`
lines 64–118): the computed `format_size`, an early `return 0`, or C
undefined behaviour. -/
inductive EncodeCheck where
  | ok (format_size : Nat)
  | fail
  | ub
  deriving DecidableEq, Repr

/-- The format-validation loop of `rdm_encode` (`rdm/utils.c` lines 64–118).
Of the error cases only the misplaced optional UID, the too-wide or
`h`-less integer literal, the unknown symbol, and a total size above 231
actually `return 0`; the size-zero and too-big fixed-length strings are
`TODO` comments with no effect. -/
def rdm_encode_validate (fmt : List Nat) : Nat → Nat → Nat → EncodeCheck
  | 0, _, _ => .ub
  | fuel + 1, i, fs =>
    let c := fmt_char fmt i
    if c = 0 then .ok fs
    else if c = 98 then
      if fs + 1 > 231 then .fail else rdm_encode_validate fmt fuel (i + 1) (fs + 1)
    else if c = 119 then
      if fs + 2 > 231 then .fail else rdm_encode_validate fmt fuel (i + 1) (fs + 2)
    else if c = 100 then
      if fs + 4 > 231 then .fail else rdm_encode_validate fmt fuel (i + 1) (fs + 4)
    else if c = 117 then
      if fs + 6 > 231 then .fail else rdm_encode_validate fmt fuel (i + 1) (fs + 6)
    else if c = 118 then
      -- optional UID must be at the end of the parameter data
      if fmt_char fmt (i + 1) ≠ 0 then .fail
      else if fs + 6 > 231 then .fail
      else rdm_encode_validate fmt fuel (i + 1) (fs + 6)
    else if c = 97 then
      if c_isdigit (fmt_char fmt (i + 1)) then
        -- fixed-length string: the TODO comments for size 0 / too big do
        -- not return; `f = end_ptr` then skips one char past the digits
        let pe := parse_dec fmt (i + 1)
        if fs + pe.1 > 231 then .fail
        else rdm_encode_validate fmt fuel (pe.2 + 1) (fs + pe.1)
      else .ub  -- `f = end_ptr` with `end_ptr` uninitialised
    else if c = 35 then
      let pe := parse_hex fmt i
      let psize := (pe.2 - i) / 2 + (pe.2 - i) % 2
      if psize > 8 then .fail
      else if fmt_char fmt pe.2 ≠ 104 then .fail
      else if fs + psize > 231 then .fail
      else rdm_encode_validate fmt fuel (pe.2 + 2) (fs + psize)
    else .fail

/-- `size_t` subtraction (wraps modulo 2⁶⁴), used by `pdl - written`. -/
def szsub (a b : Nat) : Nat :=
  if b ≤ a then a - b else 18446744073709551616 - (b - a)

/-- `strnlen(pd + i, maxlen)` over the parameter-data bytes. -/
def strnlen_pd (pd : List Nat) (i : Nat) : Nat → Nat
  | 0 => 0
  | m + 1 => if pd.getD i 0 = 0 then 0 else 1 + strnlen_pd pd (i + 1) m

/-- Write one byte into the output buffer. -/
def write_byte (out : Nat → Nat) (i v : Nat) : Nat → Nat :=
  fun k => if k = i then v else out k

/-- `memmove(&mdb->pd[di], pd + si, n)`. -/
def copy_bytes (src : List Nat) (si di n : Nat) (out : Nat → Nat) : Nat → Nat :=
  fun k => if di ≤ k ∧ k < di + n then src.getD (si + (k - di)) 0 else out k

/-- One pass of the inner `for` loop of `rdm_encode`'s encode phase
(`rdm/utils.c` lines 121–163), from format position `i`.  Returns the updated
`(written, pd_index, output buffer)`, or `none` when the integer-literal
branch (C undefined behaviour, unreachable after validation) is hit. -/
def rdm_encode_inner (fmt : List Nat) (pd : List Nat) (pdl : Nat) :
    Nat → Nat → Nat → Nat → (Nat → Nat) → Option (Nat × Nat × (Nat → Nat))
  | 0, _, _, _, _ => none
  | fuel + 1, i, written, pd_index, out =>
    let c := fmt_char fmt i
    if c = 0 ∨ ¬pd_index < pdl then some (written, pd_index, out)
    else if c = 35 then none  -- integer literal: reads below a stack variable
    else if c = 98 then
      rdm_encode_inner fmt pd pdl fuel (i + 1) (written + 1) (pd_index + 1)
        (write_byte out written (pd.getD pd_index 0))
    else if c = 119 then
      -- 16-bit: the two source bytes are stored swapped (bswap16)
      rdm_encode_inner fmt pd pdl fuel (i + 1) (written + 2) (pd_index + 2)
        (write_byte (write_byte out written (pd.getD (pd_index + 1) 0))
          (written + 1) (pd.getD pd_index 0))
    else if c = 100 then
      -- 32-bit: the four source bytes are stored reversed (bswap32)
      rdm_encode_inner fmt pd pdl fuel (i + 1) (written + 4) (pd_index + 4)
        (write_byte (write_byte (write_byte (write_byte out
          written (pd.getD (pd_index + 3) 0))
          (written + 1) (pd.getD (pd_index + 2) 0))
          (written + 2) (pd.getD (pd_index + 1) 0))
          (written + 3) (pd.getD pd_index 0))
    else if c = 117 ∨ c = 118 then
      if c = 118 ∧ pd.getD pd_index 0 = 0 ∧ pd.getD (pd_index + 1) 0 = 0 ∧
          pd.getD (pd_index + 2) 0 = 0 ∧ pd.getD (pd_index + 3) 0 = 0 ∧
          pd.getD (pd_index + 4) 0 = 0 ∧ pd.getD (pd_index + 5) 0 = 0 then
        -- optional UID equal to NULL: skipped (`continue`)
        rdm_encode_inner fmt pd pdl fuel (i + 1) written (pd_index + 6) out
      else
        -- uidmove: host-order man_id (2 bytes LE) and dev_id (4 bytes LE)
        -- are emitted big-endian
        rdm_encode_inner fmt pd pdl fuel (i + 1) (written + 6) (pd_index + 6)
          (write_byte (write_byte (write_byte (write_byte (write_byte
            (write_byte out
              written (pd.getD (pd_index + 1) 0))
              (written + 1) (pd.getD pd_index 0))
              (written + 2) (pd.getD (pd_index + 5) 0))
              (written + 3) (pd.getD (pd_index + 4) 0))
              (written + 4) (pd.getD (pd_index + 3) 0))
              (written + 5) (pd.getD (pd_index + 2) 0))
    else if c = 97 then
      let max_len := if szsub pdl written < 32 then szsub pdl written else 32
      let len := strnlen_pd pd pd_index max_len
      rdm_encode_inner fmt pd pdl fuel (i + 1) (written + len) (pd_index + len)
        (copy_bytes pd pd_index written len out)
    else
      -- no branch matches (e.g. the digits of a fixed-length string): skip
      rdm_encode_inner fmt pd pdl fuel (i + 1) written pd_index out

/-- The outer `while (pd_index < pdl && written < 231)` loop of `rdm_encode`
(`rdm/utils.c` line 120). -/
def rdm_encode_outer (fmt : List Nat) (pd : List Nat) (pdl : Nat) :
    Nat → Nat → Nat → (Nat → Nat) → Option (Nat × Nat × (Nat → Nat))
  | 0, _, _, _ => none
  | fuel + 1, written, pd_index, out =>
    if pd_index < pdl ∧ written < 231 then
      match rdm_encode_inner fmt pd pdl (fmt.length + 1) 0 written pd_index out
        with
      | none => none
      | some (w, p, o) => rdm_encode_outer fmt pd pdl fuel w p o
    else some (written, pd_index, out)

/-- `rdm_encode` from `rdm/utils.c` (lines 59–167): validate the format
string, then encode.  An early `return 0` from validation leaves `mdb→pdl`
untouched; only the normal exit stores `written` into it.  `none` marks runs
through C undefined behaviour (or the non-terminating encode loop). -/
def rdm_encode (mdb : RdmMdb) (fmt : List Nat) (pd : List Nat) (pdl : Nat) :
    Option (Nat × RdmMdb) :=
  match rdm_encode_validate fmt (fmt.length + 1) 0 0 with
  | .fail => some (0, mdb)
  | .ub => none
  | .ok _ =>
    match rdm_encode_outer fmt pd pdl (pdl + 232) 0 0 mdb.pd with
    | none => none
    | some (written, _, out) => some (written, ⟨out, written⟩)

/-- C6 (against the code): the format `"a0b"` contains the fixed-length
string of size zero `a0`, yet `rdm_encode` does not fail: on one byte of
parameter data it returns 1 and sets `pdl = 1`.  And when validation does
fail (unknown symbol `z`), `rdm_encode` returns 0 but leaves the previous
`pdl` (here 77) in place instead of setting it to 0. -/
theorem rdm_encode_size_zero_string_not_rejected :
    ((rdm_encode ⟨fun _ => 0, 0⟩ [97, 48, 98] [0x41] 1).map
      (fun r => (r.1, r.2.pdl))) = some (1, 1) ∧
    ((rdm_encode ⟨fun _ => 0, 77⟩ [122] [] 0).map
      (fun r => (r.1, r.2.pdl))) = some (0, 77) := by
  constructor
  · rfl
  · rfl

end EspDmx
